import Mathlib

/-!
Verification of the smolvm host/guest control protocol, the in-guest storage
engine and the sanitizers, against the natural-language specification.

The development is a shallow embedding of the Rust sources:

* `crates/smolvm-protocol/src/lib.rs` — the length-prefixed JSON framing
  (`encode_message`, `decode_message`, `MAX_FRAME_SIZE`) and the
  `HelperRequest` / `HelperResponse` message enums with their serde
  attributes (internally tagged, `rename_all = "snake_case"`).
* `crates/smolvm-helper/src/main.rs` and `crates/smolvm-agent/src/main.rs` —
  the in-guest servers (`handle_connection`, `handle_request`, `handle_pull`).
* `crates/smolvm-agent/src/storage.rs` — the storage engine
  (`query_image`, `pull_image`, `garbage_collect`, `prepare_overlay`,
  `cleanup_overlay`, `run_with_crun`, `sanitize_image_name`).
* `src/agent/client.rs` — the host client (`read_response`,
  `AgentClient::shutdown`).
* `src/vm/config.rs` — `VmId::new`.

Modelling conventions: bytes are `Nat` (each < 256, enforced by
construction); machine-integer casts are explicit `% 2 ^ 32` etc.;
filesystem state is an explicit record threaded through the storage
operations; side effects (network fetches, `sync(2)`, signals) are explicit
effect lists. The serde_json byte codec is an external crate; its
serializer is modelled concretely (`serJson`, needed because the framing
measures byte lengths) and the typed decoding is modelled at the JSON-value
level (`reqFromJson`, `respFromJson`), following the serde derive
attributes in the source. JSON numbers are modelled as integers (the
protocol types carry only integral numbers).
-/

namespace Smolvm

/-- Maximum frame size (16 MB), from `smolvm-protocol/src/lib.rs` line 25. -/
def MAX_FRAME_SIZE : Nat := 16 * 1024 * 1024

/-- Big-endian 4-byte encoding of a `u32` value, as `u32::to_be_bytes`. -/
def u32be (n : Nat) : List Nat :=
  [n / 2 ^ 24 % 256, n / 2 ^ 16 % 256, n / 2 ^ 8 % 256, n % 256]

/-- Big-endian reconstruction of a `u32` from 4 bytes, as `u32::from_be_bytes`. -/
def beU32 (b0 b1 b2 b3 : Nat) : Nat :=
  ((b0 * 256 + b1) * 256 + b2) * 256 + b3

/-- JSON values as produced and consumed by serde_json, with numbers
restricted to integers (all numeric fields of the protocol types are
integral). -/
inductive Json where
  | null : Json
  | bool : Bool → Json
  | num : Int → Json
  | str : String → Json
  | arr : List Json → Json
  | obj : List (String × Json) → Json

/-- UTF-8 encoding of a single character, byte values as `Nat`. -/
def utf8Bytes (c : Char) : List Nat :=
  let n := c.toNat
  if n < 0x80 then [n]
  else if n < 0x800 then [0xC0 + n / 64, 0x80 + n % 64]
  else if n < 0x10000 then [0xE0 + n / 4096, 0x80 + n / 64 % 64, 0x80 + n % 64]
  else [0xF0 + n / 262144, 0x80 + n / 4096 % 64, 0x80 + n / 64 % 64, 0x80 + n % 64]

/-- Hexadecimal digit characters used by serde_json's `\u00XX` escapes. -/
def hexDigitChar (n : Nat) : Char :=
  if n < 10 then Char.ofNat (48 + n) else Char.ofNat (87 + n)

/-- Escape of a single character inside a JSON string, as emitted by
serde_json: quote and backslash are backslash-escaped, the five short
control escapes are used where they exist, other control characters use
`\u00XX`, and everything else is emitted as raw UTF-8. -/
def escapeChar (c : Char) : List Nat :=
  if c.toNat = 34 then [92, 34]
  else if c.toNat = 92 then [92, 92]
  else if c.toNat = 8 then [92, 98]
  else if c.toNat = 9 then [92, 116]
  else if c.toNat = 10 then [92, 110]
  else if c.toNat = 12 then [92, 102]
  else if c.toNat = 13 then [92, 114]
  else if c.toNat < 32 then
    [92, 117, 48, 48, (hexDigitChar (c.toNat / 16)).toNat, (hexDigitChar (c.toNat % 16)).toNat]
  else utf8Bytes c

/-- Body bytes of a JSON string (escapes applied, no surrounding quotes). -/
def escChars : List Char → List Nat
  | [] => []
  | c :: cs => escapeChar c ++ escChars cs

/-- Serialized form of a JSON string, including the surrounding quotes. -/
def serStr (s : String) : List Nat :=
  34 :: escChars s.data ++ [34]

/-- Decimal digit characters of a natural number, most significant first. -/
def natDecChars (n : Nat) : List Char :=
  if n = 0 then [Char.ofNat 48]
  else ((Nat.digits 10 n).reverse.map fun d => Char.ofNat (48 + d))

/-- Serialized form of an integer, as serde_json prints integral numbers. -/
def serInt (n : Int) : List Nat :=
  if n < 0 then 45 :: (natDecChars n.natAbs).map Char.toNat
  else (natDecChars n.natAbs).map Char.toNat

mutual

/-- Compact serialization of a JSON value to bytes, as `serde_json::to_vec`
(no whitespace, object fields in the order held in the value, which for the
derived `Serialize` impls is declaration order with the serde tag first). -/
def serJson : Json → List Nat
  | .null => [110, 117, 108, 108]
  | .bool true => [116, 114, 117, 101]
  | .bool false => [102, 97, 108, 115, 101]
  | .num n => serInt n
  | .str s => serStr s
  | .arr xs => 91 :: serArrBody xs ++ [93]
  | .obj kvs => 123 :: serObjBody kvs ++ [125]

/-- Comma-separated serialization of array elements. -/
def serArrBody : List Json → List Nat
  | [] => []
  | [x] => serJson x
  | x :: y :: xs => serJson x ++ 44 :: serArrBody (y :: xs)

/-- Comma-separated serialization of object members. -/
def serObjBody : List (String × Json) → List Nat
  | [] => []
  | [(k, v)] => serStr k ++ 58 :: serJson v
  | (k, v) :: m :: kvs => serStr k ++ 58 :: serJson v ++ 44 :: serObjBody (m :: kvs)

end

/-- Helper daemon request types, from `smolvm-protocol/src/lib.rs` lines
52-103 (`#[serde(tag = "method", rename_all = "snake_case")]`). -/
inductive HelperRequest where
  | Ping
  | Pull (image : String) (platform : Option String)
  | Query (image : String)
  | ListImages
  | GarbageCollect (dry_run : Bool)
  | PrepareOverlay (image : String) (workload_id : String)
  | CleanupOverlay (workload_id : String)
  | FormatStorage
  | StorageStatus
  | Shutdown
  deriving DecidableEq

/-- Helper daemon response types, from `smolvm-protocol/src/lib.rs` lines
105-142 (`#[serde(tag = "status", rename_all = "snake_case")]`).
`version` is a `u32` and `percent` a `u8`, carried here as `Nat`; the
well-formedness predicate `HelperResponse.wf` records the ranges the Rust
types guarantee. -/
inductive HelperResponse where
  | Ok (data : Option Json)
  | Pong (version : Nat)
  | Progress (message : String) (percent : Option Nat) (layer : Option String)
  | Error (message : String) (code : Option String)

/-- Serde serialization of an `Option<String>` field without a skip
attribute (the `platform` field of `Pull`): `None` becomes JSON null. -/
def optStrJson : Option String → Json
  | none => .null
  | some s => .str s

/-- JSON value produced by the derived `Serialize` impl of `HelperRequest`:
internally tagged with `method`, variant names in snake_case, fields in
declaration order. -/
def reqToJson : HelperRequest → Json
  | .Ping => .obj [("method", .str "ping")]
  | .Pull image platform =>
      .obj [("method", .str "pull"), ("image", .str image), ("platform", optStrJson platform)]
  | .Query image => .obj [("method", .str "query"), ("image", .str image)]
  | .ListImages => .obj [("method", .str "list_images")]
  | .GarbageCollect dry_run =>
      .obj [("method", .str "garbage_collect"), ("dry_run", .bool dry_run)]
  | .PrepareOverlay image workload_id =>
      .obj [("method", .str "prepare_overlay"), ("image", .str image),
            ("workload_id", .str workload_id)]
  | .CleanupOverlay workload_id =>
      .obj [("method", .str "cleanup_overlay"), ("workload_id", .str workload_id)]
  | .FormatStorage => .obj [("method", .str "format_storage")]
  | .StorageStatus => .obj [("method", .str "storage_status")]
  | .Shutdown => .obj [("method", .str "shutdown")]

/-- JSON value produced by the derived `Serialize` impl of
`HelperResponse`: tagged with `status`; the `data`, `percent`, `layer` and
`code` fields carry `#[serde(skip_serializing_if = "Option::is_none")]`
and are omitted when `None`. -/
def respToJson : HelperResponse → Json
  | .Ok none => .obj [("status", .str "ok")]
  | .Ok (some d) => .obj [("status", .str "ok"), ("data", d)]
  | .Pong version => .obj [("status", .str "pong"), ("version", .num version)]
  | .Progress message percent layer =>
      .obj ([("status", .str "progress"), ("message", .str message)]
        ++ (match percent with | none => [] | some p => [("percent", Json.num p)])
        ++ (match layer with | none => [] | some l => [("layer", Json.str l)]))
  | .Error message code =>
      .obj ([("status", .str "error"), ("message", .str message)]
        ++ (match code with | none => [] | some c => [("code", Json.str c)]))

/-- First-match lookup of a field in a JSON object. -/
def jlookup : List (String × Json) → String → Option Json
  | [], _ => none
  | (k, v) :: kvs, key => if k = key then some v else jlookup kvs key

/-- Deserialization of a required `String` field. -/
def getStr (kvs : List (String × Json)) (k : String) : Option String :=
  match jlookup kvs k with
  | some (.str s) => some s
  | _ => none

/-- Deserialization of an `Option<String>` field: missing or null is
`None`, a string is `Some`, anything else is a type error. -/
def getOptStr (kvs : List (String × Json)) (k : String) : Option (Option String) :=
  match jlookup kvs k with
  | none => some none
  | some .null => some none
  | some (.str s) => some (some s)
  | some _ => none

/-- Deserialization of a required `bool` field. -/
def getBool (kvs : List (String × Json)) (k : String) : Option Bool :=
  match jlookup kvs k with
  | some (.bool b) => some b
  | _ => none

/-- Deserialization of a required `u32` field. -/
def getU32 (kvs : List (String × Json)) (k : String) : Option Nat :=
  match jlookup kvs k with
  | some (.num n) => if 0 ≤ n ∧ n < 2 ^ 32 then some n.toNat else none
  | _ => none

/-- Deserialization of an `Option<u8>` field. -/
def getOptU8 (kvs : List (String × Json)) (k : String) : Option (Option Nat) :=
  match jlookup kvs k with
  | none => some none
  | some .null => some none
  | some (.num n) => if 0 ≤ n ∧ n < 2 ^ 8 then some (some n.toNat) else none
  | some _ => none

/-- Deserialization of an `Option<serde_json::Value>` field: missing or
explicit null both give `None` (serde's `Option` impl maps JSON null to
`None` before `Value` can claim it), any other value gives `Some`. -/
def getOptData (kvs : List (String × Json)) (k : String) : Option (Option Json) :=
  match jlookup kvs k with
  | none => some none
  | some .null => some none
  | some j => some (some j)

/-- Value-level model of the derived `Deserialize` impl of
`HelperRequest`: dispatch on the `method` tag, then read the variant's
fields by name, ignoring unknown fields. -/
def reqFromJson : Json → Option HelperRequest
  | .obj kvs =>
    match jlookup kvs "method" with
    | some (.str m) =>
      if m = "ping" then some .Ping
      else if m = "pull" then
        (getStr kvs "image").bind fun image =>
          (getOptStr kvs "platform").map fun platform => .Pull image platform
      else if m = "query" then (getStr kvs "image").map .Query
      else if m = "list_images" then some .ListImages
      else if m = "garbage_collect" then (getBool kvs "dry_run").map .GarbageCollect
      else if m = "prepare_overlay" then
        (getStr kvs "image").bind fun image =>
          (getStr kvs "workload_id").map fun wid => .PrepareOverlay image wid
      else if m = "cleanup_overlay" then (getStr kvs "workload_id").map .CleanupOverlay
      else if m = "format_storage" then some .FormatStorage
      else if m = "storage_status" then some .StorageStatus
      else if m = "shutdown" then some .Shutdown
      else none
    | _ => none
  | _ => none

/-- Value-level model of the derived `Deserialize` impl of `HelperResponse`. -/
def respFromJson : Json → Option HelperResponse
  | .obj kvs =>
    match jlookup kvs "status" with
    | some (.str s) =>
      if s = "ok" then (getOptData kvs "data").map .Ok
      else if s = "pong" then (getU32 kvs "version").map .Pong
      else if s = "progress" then
        (getStr kvs "message").bind fun message =>
          (getOptU8 kvs "percent").bind fun percent =>
            (getOptStr kvs "layer").map fun layer => .Progress message percent layer
      else if s = "error" then
        (getStr kvs "message").bind fun message =>
          (getOptStr kvs "code").map fun code => .Error message code
      else none
    | _ => none
  | _ => none

/-- Ranges guaranteed by the Rust field types (`u32` version, `u8` percent). -/
def HelperResponse.wf : HelperResponse → Prop
  | .Pong version => version < 2 ^ 32
  | .Progress _ percent _ => ∀ p, percent = some p → p < 2 ^ 8
  | _ => True

/-- Error decoding a wire message, from `smolvm-protocol/src/lib.rs` lines
341-356. -/
inductive DecodeError where
  | tooShort
  | tooLarge (size : Nat)
  | incomplete (expected got : Nat)
  | jsonError
  deriving DecidableEq

/-- Length-prefixed framing of a serialized payload, from `encode_message`
(`smolvm-protocol/src/lib.rs` lines 307-316): `let len = json.len() as
u32` (a truncating cast, modelled as `% 2 ^ 32`) followed by the 4
big-endian length bytes and the payload. -/
def frameBytes (payload : List Nat) : List Nat :=
  u32be (payload.length % 2 ^ 32) ++ payload

/-- Wire encoding of a `HelperRequest` (`encode_message` instantiated at
the request type, with `serde_json::to_vec` modelled by `serJson`). -/
def encode_message (r : HelperRequest) : List Nat :=
  frameBytes (serJson (reqToJson r))

/-- Wire encoding of a `HelperResponse`. -/
def encodeResponse (r : HelperResponse) : List Nat :=
  frameBytes (serJson (respToJson r))

/-- Framing half of `decode_message` (`smolvm-protocol/src/lib.rs` lines
319-338): reject data shorter than the header, reject a declared length
above `MAX_FRAME_SIZE`, reject an incomplete payload, and otherwise return
the payload slice `data[4..4+len]` that the source hands to
`serde_json::from_slice` (the typed decoding is modelled separately at the
JSON-value level by `reqFromJson` / `respFromJson`). -/
def decode_message (data : List Nat) : Except DecodeError (List Nat) :=
  match data with
  | b0 :: b1 :: b2 :: b3 :: rest =>
    let len := beU32 b0 b1 b2 b3
    if MAX_FRAME_SIZE < len then .error (.tooLarge len)
    else if data.length < 4 + len then .error (.incomplete len (data.length - 4))
    else .ok (rest.take len)
  | _ => .error .tooShort

/-- Values whose serialization does not hit serde's `Option<Value>`
asymmetry: an `Ok` response holding an explicit JSON null serializes to
`"data":null`, which deserializes back to `data = None`. -/
def noNullData : HelperResponse → Prop
  | .Ok (some .null) => False
  | _ => True

/-- Outcome of one framed read by the in-guest server loop. The type has
no "frame too large" outcome because `handle_connection` has no such
check. -/
inductive ServerRead where
  | closedClean
  | ioError
  | gotRequest (payload : List Nat) (bufCap : Nat)
  deriving DecidableEq

/-- One framed read of the in-guest server, from `handle_connection` in
`smolvm-agent/src/main.rs` lines 69-103 (the helper daemon's
`smolvm-helper/src/main.rs` lines 66-100 is byte-for-byte the same logic):
EOF before a full header closes the connection cleanly; otherwise the
declared length is read from the 4-byte big-endian header, the receive
buffer is grown to `len` bytes (`buf.resize(len, 0)`) with no size check,
and exactly `len` payload bytes are read. `bufCap` is the current buffer
capacity (initially 64 KiB). -/
def handle_connection_read (data : List Nat) (bufCap : Nat) : ServerRead :=
  match data with
  | b0 :: b1 :: b2 :: b3 :: rest =>
    let len := beU32 b0 b1 b2 b3
    let cap := max bufCap len
    if rest.length < len then .ioError
    else .gotRequest (rest.take len) cap
  | _ => .closedClean

/-- Outcome of one framed read by a host-side client. -/
inductive ClientRead where
  | headerError
  | frameTooLarge (len : Nat)
  | payloadError
  | gotPayload (payload : List Nat)
  deriving DecidableEq

/-- Framing of `AgentClient::read_response`, from `src/agent/client.rs`
lines 308-336: read the header, reject a declared length above
`MAX_FRAME_SIZE` before allocating, then allocate `len` bytes and read the
payload. -/
def read_response_frame (data : List Nat) : ClientRead :=
  match data with
  | b0 :: b1 :: b2 :: b3 :: rest =>
    let len := beU32 b0 b1 b2 b3
    if MAX_FRAME_SIZE < len then .frameTooLarge len
    else if rest.length < len then .payloadError
    else .gotPayload (rest.take len)
  | _ => .headerError

/-- Framing of `HelperClient::read_response`, from `src/helper/client.rs`
lines 55-72: like the agent client but with no size check before the
`vec![0u8; len]` allocation. -/
def helper_client_read_frame (data : List Nat) : ClientRead :=
  match data with
  | b0 :: b1 :: b2 :: b3 :: rest =>
    let len := beU32 b0 b1 b2 b3
    if rest.length < len then .payloadError
    else .gotPayload (rest.take len)
  | _ => .headerError

/-- Image reference consisting of `n` letters `a`, used for size
counterexamples. -/
def aRef (n : Nat) : String := String.mk (List.replicate n (Char.ofNat 97))

/-- Model of Rust's `char::is_alphanumeric` (Unicode `Alphabetic` plus the
`Nd`, `Nl`, `No` number categories), written out for code points below
0x100; the development settles the sanitizer claims on such inputs. On
the Latin-1 supplement the Unicode predicate additionally accepts
ª ² ³ µ ¹ º ¼ ½ ¾ and the accented letters, which is the point of the C9
counterexample. -/
def rustIsAlphanumeric (c : Char) : Bool :=
  let n := c.toNat
  (48 ≤ n && n ≤ 57) || (65 ≤ n && n ≤ 90) || (97 ≤ n && n ≤ 122) ||
  n == 0xAA || n == 0xB2 || n == 0xB3 || n == 0xB5 || n == 0xB9 || n == 0xBA ||
  n == 0xBC || n == 0xBD || n == 0xBE ||
  (0xC0 ≤ n && n ≤ 0xD6) || (0xD8 ≤ n && n ≤ 0xF6) || (0xF8 ≤ n && n ≤ 0xFF)

/-- Characters kept by `VmId::new`'s filter (`src/vm/config.rs` line 23):
`c.is_alphanumeric() || *c == '-' || *c == '_'`. -/
def vmIdKeep (c : Char) : Bool :=
  rustIsAlphanumeric c || c == Char.ofNat 45 || c == Char.ofNat 95

/-- Hexadecimal digit characters of a natural number, most significant
first, as `format!` with the `x` specifier prints it. -/
def natHexChars (n : Nat) : List Char :=
  if n = 0 then [Char.ofNat 48]
  else (Nat.digits 16 n).reverse.map hexDigitChar

/-- Generated fallback id, from `VmId::generate` (`src/vm/config.rs`
lines 34-41): `format!("vm-{:x}", ts)` where `ts` is the Unix time in
milliseconds as a `u128`. -/
def vmIdGenerate (ts : Nat) : List Char :=
  Char.ofNat 118 :: Char.ofNat 109 :: Char.ofNat 45 :: natHexChars ts

/-- Model of `VmId::new` (`src/vm/config.rs` lines 18-31): keep only
alphanumeric (Unicode), dash and underscore characters, truncate to 64
characters, and fall back to a generated timestamped id when nothing
remains. -/
def vmIdNew (s : List Char) (ts : Nat) : List Char :=
  let sanitized := (s.filter vmIdKeep).take 64
  if sanitized.isEmpty then vmIdGenerate ts else sanitized

/-- Model of `sanitize_image_name` (`smolvm-agent/src/storage.rs` lines
942-945): `image.replace(['/', ':', '@'], "_")`. -/
def sanitize_image_name (image : String) : String :=
  String.mk (image.data.map fun c =>
    if c = Char.ofNat 47 ∨ c = Char.ofNat 58 ∨ c = Char.ofNat 64 then Char.ofNat 95 else c)

/-- Character class `[A-Za-z0-9_-]` named by the spec's sanitization
property; stated from the spec's words, to be compared with the class the
code actually keeps (`vmIdKeep`). -/
def specAsciiIdChar (c : Char) : Bool :=
  (65 ≤ c.toNat && c.toNat ≤ 90) || (97 ≤ c.toNat && c.toNat ≤ 122) ||
  (48 ≤ c.toNat && c.toNat ≤ 57) || c == Char.ofNat 95 || c == Char.ofNat 45

/-- Parsed image manifest, as cached verbatim under
`/storage/manifests/{key}.json`: the `config.digest` field and the layer
digest list in manifest order. File contents are modelled as parsed
records. -/
structure Manifest where
  configDigest : String
  layers : List String
  deriving DecidableEq

/-- Parsed image config, as cached under `/storage/configs/{hex}.json`:
the metadata fields `query_image` reads (`architecture`, `os`, `created`),
each absent when the JSON lacks the key. -/
structure ImageConfig where
  architecture : Option String
  os : Option String
  created : Option String
  deriving DecidableEq

/-- Image information, from `smolvm-protocol/src/lib.rs` lines 144-163. -/
structure ImageInfo where
  reference : String
  digest : String
  size : Nat
  created : Option String
  architecture : String
  os : String
  layer_count : Nat
  layers : List String
  deriving DecidableEq

/-- Overlay preparation result, from `smolvm-protocol/src/lib.rs` lines
165-174. -/
structure OverlayInfo where
  rootfs_path : String
  upper_path : String
  work_path : String
  deriving DecidableEq

/-- Filesystem state of the in-guest storage engine under `/storage`:
cached manifests keyed by the sanitized image name, cached configs keyed
by the config digest hex, extracted layer directories keyed by the layer
digest hex and carrying their `dir_size`, the set of overlay workspace
directories, the set of bundle `rootfs` symlinks, and the multiset of
live overlay mounts (a target mounted twice appears twice). -/
structure StorageState where
  manifests : List (String × Manifest)
  configs : List (String × ImageConfig)
  layers : List (String × Nat)
  overlayDirs : List String
  bundles : List String
  mounts : List String
  deriving DecidableEq

/-- First-match association-list lookup (a directory holds one entry per
name). -/
def alistLookup {α : Type} : List (String × α) → String → Option α
  | [], _ => none
  | (k, v) :: kvs, key => if k = key then some v else alistLookup kvs key

/-- Overwriting insert, as `std::fs::write` on an existing file. -/
def alistUpsert {α : Type} : List (String × α) → String → α → List (String × α)
  | [], k, v => [(k, v)]
  | (k', v') :: kvs, k, v =>
    if k' = k then (k, v) :: kvs else (k', v') :: alistUpsert kvs k v

/-- Model of `digest.strip_prefix("sha256:").unwrap_or(digest)`. -/
def stripSha256 (d : String) : String :=
  if d.data.take 7 = "sha256:".data then String.mk (d.data.drop 7) else d

/-- Model of `query_image` (`smolvm-agent/src/storage.rs` lines 373-435):
succeed with `None` when no manifest file exists for the sanitized image
name; otherwise read the manifest, then the config file (an I/O error if
missing), and assemble the `ImageInfo`, summing `dir_size` over the
manifest's layers with a missing layer directory contributing 0. No check
that the layer directories exist is performed. -/
def query_image (s : StorageState) (image : String) : Except String (Option ImageInfo) :=
  match alistLookup s.manifests (sanitize_image_name image) with
  | none => .ok none
  | some m =>
    match alistLookup s.configs (stripSha256 m.configDigest) with
    | none => .error "config read failed"
    | some cfg =>
      .ok (some {
        reference := image
        digest := m.configDigest
        size := (m.layers.map fun d => (alistLookup s.layers (stripSha256 d)).getD 0).sum
        created := cfg.created
        architecture := cfg.architecture.getD "unknown"
        os := cfg.os.getD "linux"
        layer_count := m.layers.length
        layers := m.layers })

/-- Network side effects of a pull (the `crane` invocations). -/
inductive NetEffect where
  | fetchManifest (image : String) (platform : Option String)
  | fetchConfig (image : String) (platform : Option String)
  | fetchBlob (image : String) (digest : String)
  deriving DecidableEq

/-- Registry environment a pull runs against: what `crane manifest`,
`crane config` and `crane blob | tar -xzf` produce. A `none` manifest
covers both a fetch failure and the manifest-list error path (both make
`pull_image` fail before touching layers). `blobSize` is the `dir_size`
of the extracted layer. -/
structure Network where
  manifest : String → Option String → Option Manifest
  config : String → Option String → Option ImageConfig
  blobOk : String → String → Bool
  blobSize : String → Nat

/-- Modelled from the spec: `validate_image_reference` lives in the
agent's `oci.rs`, which is absent from the sources (only its caller in
`storage.rs` line 226 is present); the spec says only "Validate reference
syntax" (§4.5 Pull step 1). Modelled as rejecting the empty reference. -/
def validate_image_reference (image : String) : Except String Unit :=
  if image = "" then .error "empty image reference" else .ok ()

/-- Layer-extraction loop of `pull_image` (`storage.rs` lines 305-350):
for each layer in manifest order, skip it if its directory exists,
otherwise create the directory and stream the blob through tar; on
failure remove the partial directory and fail the pull (earlier layers
and the already-written manifest and config remain). The accumulated
total counts only newly extracted layers, as in the source. -/
def extractLayers (net : Network) (image : String) :
    List String → StorageState → Nat → List NetEffect × StorageState × Except String Nat
  | [], s, total => ([], s, .ok total)
  | d :: rest, s, total =>
    match alistLookup s.layers (stripSha256 d) with
    | some _ => extractLayers net image rest s total
    | none =>
      if net.blobOk image d then
        let size := net.blobSize d
        let s' := { s with layers := s.layers ++ [(stripSha256 d, size)] }
        let (effs, s'', r) := extractLayers net image rest s' (total + size)
        (.fetchBlob image d :: effs, s'', r)
      else
        ([.fetchBlob image d], s, .error ("failed to extract layer " ++ d))

/-- Model of `pull_image` (`storage.rs` lines 224-370): validate the
reference; short-circuit with the cached `ImageInfo` and no network I/O
whenever `query_image` succeeds (a `query_image` error falls through to a
real pull); default the platform per the guest architecture; fetch and
persist the manifest, then fetch and persist the config, then extract the
layers; assemble the `ImageInfo` from the config metadata and the sum of
newly extracted layer sizes. -/
def pull_image (net : Network) (defaultPlatform : Option String) (s : StorageState)
    (image : String) (platform : Option String) :
    List NetEffect × StorageState × Except String ImageInfo :=
  match validate_image_reference image with
  | .error e => ([], s, .error e)
  | .ok _ =>
    match query_image s image with
    | .ok (some info) => ([], s, .ok info)
    | _ =>
      let platform := match platform with
        | some p => some p
        | none => defaultPlatform
      match net.manifest image platform with
      | none => ([.fetchManifest image platform], s, .error "manifest fetch failed")
      | some m =>
        let s1 := { s with
          manifests := alistUpsert s.manifests (sanitize_image_name image) m }
        match net.config image platform with
        | none =>
            ([.fetchManifest image platform, .fetchConfig image platform], s1,
              .error "config fetch failed")
        | some cfg =>
          let s2 := { s1 with
            configs := alistUpsert s1.configs (stripSha256 m.configDigest) cfg }
          let (effs, s3, r) := extractLayers net image m.layers s2 0
          (.fetchManifest image platform :: .fetchConfig image platform :: effs, s3,
            r.map fun total => {
              reference := image
              digest := m.configDigest
              size := total
              created := cfg.created
              architecture := cfg.architecture.getD "unknown"
              os := cfg.os.getD "linux"
              layer_count := m.layers.length
              layers := m.layers })

/-- Layer digests (stripped to their hex ids) referenced by any cached
manifest, from the scan in `garbage_collect` (`storage.rs` lines
475-493). -/
def referencedLayerIds (s : StorageState) : List String :=
  (s.manifests.map fun kv => kv.2.layers.map stripSha256).flatten

/-- Model of `garbage_collect` (`storage.rs` lines 470-517): every layer
directory whose id is referenced by no cached manifest is a candidate;
its size is added to the total, and unless `dry_run` the directory is
removed. Returns (freed bytes, new state). -/
def garbage_collect (s : StorageState) (dry_run : Bool) : Nat × StorageState :=
  let freed := ((s.layers.filter fun kv =>
    ¬ (referencedLayerIds s).contains kv.1).map fun kv => kv.2).sum
  (freed,
    if dry_run then s
    else { s with layers := s.layers.filter fun kv => (referencedLayerIds s).contains kv.1 })

/-- Overlay workspace root for a workload id. -/
def overlayRoot (wid : String) : String := "/storage/overlays/" ++ wid

/-- Merged-directory mount target for a workload id. -/
def mergedPath (wid : String) : String := overlayRoot wid ++ "/merged"

/-- Model of `prepare_overlay` (`storage.rs` lines 520-638): require the
image to resolve via `query_image`; create the `upper`/`work`/`merged`
directories (and `upper/etc/resolv.conf`, `upper/dev`), idempotently;
fail if any layer path is missing; run the overlay `mount`, which
succeeds and stacks a fresh mount on `merged` even when one is already
there; create `bundle/rootfs -> ../merged` unless it exists; and return
the `OverlayInfo` paths, which depend only on the workload id. -/
def prepare_overlay (s : StorageState) (image wid : String) :
    StorageState × Except String OverlayInfo :=
  match query_image s image with
  | .error e => (s, .error e)
  | .ok none => (s, .error ("image not found: " ++ image))
  | .ok (some info) =>
    let s1 := if s.overlayDirs.contains wid then s
      else { s with overlayDirs := wid :: s.overlayDirs }
    if info.layers.all fun d => (alistLookup s1.layers (stripSha256 d)).isSome then
      let s2 := { s1 with mounts := mergedPath wid :: s1.mounts }
      let s3 := if s2.bundles.contains wid then s2
        else { s2 with bundles := wid :: s2.bundles }
      (s3, .ok {
        rootfs_path := mergedPath wid
        upper_path := overlayRoot wid ++ "/upper"
        work_path := overlayRoot wid ++ "/work" })
    else (s1, .error "layer path does not exist")

/-- Model of `cleanup_overlay` (`storage.rs` lines 641-658): if the
workspace directory exists, run `umount merged` ignoring failure (this
removes at most one of possibly several stacked mounts), then
`remove_dir_all` on the workspace, which fails while `merged` is still a
mountpoint; if the workspace does not exist the call is a successful
no-op. -/
def cleanup_overlay (s : StorageState) (wid : String) :
    StorageState × Except String Unit :=
  if s.overlayDirs.contains wid then
    let mounts' := s.mounts.erase (mergedPath wid)
    if mounts'.contains (mergedPath wid) then
      ({ s with mounts := mounts' }, .error "failed to remove overlay workspace")
    else
      ({ s with
          mounts := mounts'
          overlayDirs := s.overlayDirs.erase wid
          bundles := s.bundles.erase wid }, .ok ())
  else (s, .ok ())

/-- Response frames as sent by the in-guest server loop (one
`send_response` call each). `okShutdown` is `Ok {data: {shutdown:
true}}`, `okGc` is `Ok {data: {freed_bytes, dry_run}}`. -/
inductive SentFrame where
  | okImage (info : ImageInfo)
  | okOverlay (info : OverlayInfo)
  | okGc (freed_bytes : Nat) (dry_run : Bool)
  | okShutdown
  | okEmpty
  | pong (version : Nat)
  | progress (message : String) (percent : Option Nat) (layer : Option String)
  | error (message code : String)
  deriving DecidableEq

/-- Progress discriminator on sent frames. -/
def SentFrame.isProgress : SentFrame → Bool
  | .progress _ _ _ => true
  | _ => false

/-- Model of `handle_pull` (`smolvm-agent/src/main.rs` lines 493-505,
identically `smolvm-helper/src/main.rs` lines 156-168): call
`storage::pull_image` and wrap the result in a single `Ok {data}` or
`Error {code: PULL_FAILED}` response. -/
def handle_pull (net : Network) (defaultPlatform : Option String) (s : StorageState)
    (image : String) (platform : Option String) : SentFrame × StorageState :=
  match pull_image net defaultPlatform s image platform with
  | (_, s', .ok info) => (.okImage info, s')
  | (_, s', .error e) => (.error e "PULL_FAILED", s')

/-- Frames the server connection loop sends in response to one `Pull`
request: `handle_connection` calls `handle_request` and performs exactly
one `send_response` (`smolvm-agent/src/main.rs` lines 114-116); no
`Progress` frame is ever constructed by the server. -/
def server_responses_for_pull (net : Network) (defaultPlatform : Option String)
    (s : StorageState) (image : String) (platform : Option String) : List SentFrame :=
  [(handle_pull net defaultPlatform s image platform).1]

instance {ε α : Type} [DecidableEq ε] [DecidableEq α] : DecidableEq (Except ε α) :=
  fun a b =>
    match a, b with
    | .ok x, .ok y =>
      if h : x = y then .isTrue (by rw [h]) else .isFalse (by simp [h])
    | .error x, .error y =>
      if h : x = y then .isTrue (by rw [h]) else .isFalse (by simp [h])
    | .ok _, .error _ => .isFalse fun h => Except.noConfusion h
    | .error _, .ok _ => .isFalse fun h => Except.noConfusion h

/-- Empty storage state (freshly formatted disk). -/
def emptyState : StorageState :=
  { manifests := [], configs := [], layers := [], overlayDirs := [], bundles := [],
    mounts := [] }

/-- Storage state with a cached manifest and config for image `img` whose
single layer directory is missing (the state a failed layer extraction
leaves behind, since `pull_image` persists the manifest and config before
extracting layers and removes the partial layer directory on failure). -/
def stateMissingLayer : StorageState :=
  { manifests := [("img", { configDigest := "sha256:cfg", layers := ["sha256:aaa"] })]
    configs := [("cfg", { architecture := some "arm64", os := some "linux", created := none })]
    layers := []
    overlayDirs := [], bundles := [], mounts := [] }

/-- Storage state with image `img` fully present (manifest, config and
its one layer directory). -/
def stateWithLayer : StorageState :=
  { manifests := [("img", { configDigest := "sha256:cfg", layers := ["sha256:aaa"] })]
    configs := [("cfg", { architecture := some "arm64", os := some "linux", created := none })]
    layers := [("aaa", 7)]
    overlayDirs := [], bundles := [], mounts := [] }

/-- Network with no reachable registry. -/
def emptyNet : Network :=
  { manifest := fun _ _ => none, config := fun _ _ => none,
    blobOk := fun _ _ => false, blobSize := fun _ => 0 }

/-- Registry serving image `alpine` with two layers. -/
def pullNet : Network :=
  { manifest := fun img _ =>
      if img = "alpine" then
        some { configDigest := "sha256:cfg2", layers := ["sha256:l1", "sha256:l2"] }
      else none
    config := fun img _ =>
      if img = "alpine" then
        some { architecture := some "arm64", os := some "linux", created := some "2024" }
      else none
    blobOk := fun _ _ => true
    blobSize := fun d => if d = "sha256:l1" then 10 else 20 }

/-- Storage state after deleting image A's manifest: image B's manifest
still references layer `shared`, while layer `orphan` (unique to A) is
unreferenced. -/
def gcState : StorageState :=
  { manifests := [("imgB", { configDigest := "sha256:cfgB", layers := ["sha256:shared"] })]
    configs := [("cfgB", { architecture := some "arm64", os := some "linux", created := none })]
    layers := [("shared", 5), ("orphan", 3)]
    overlayDirs := [], bundles := [], mounts := [] }

/-- Protocol version, from `smolvm-protocol/src/lib.rs` line 22. -/
def PROTOCOL_VERSION : Nat := 1

/-- Captured output of a child process. -/
structure ProcOutput where
  stdout : String
  stderr : String
  deriving DecidableEq

/-- Behaviour of the crun child process for one invocation: it exits
after `afterMs` milliseconds with an exit code, or never exits; `output`
is what stdout/stderr capture yields when the child is reaped or
killed. -/
inductive ProcBehavior where
  | exits (afterMs : Nat) (code : Int) (output : ProcOutput)
  | never (output : ProcOutput)
  deriving DecidableEq

/-- Modelled from the spec: `TIMEOUT_EXIT_CODE` lives in the agent's
`process.rs`, which is absent from the sources (only its import in
`storage.rs` line 13 is present); the spec's exit-code map says
"Timeout → 124". -/
def TIMEOUT_EXIT_CODE : Int := 124

/-- Result of waiting on a child, as consumed by `run_with_crun`
(`storage.rs` lines 876-906 match on exactly these two variants). -/
inductive WaitResult where
  | completed (exit_code : Int) (output : ProcOutput)
  | timedOut (output : ProcOutput) (timeout_ms : Nat)
  deriving DecidableEq

/-- Modelled from the spec: `wait_with_timeout_and_cleanup` lives in the
agent's `process.rs`, absent from the sources (only its caller
`run_with_crun` is present). Per the spec (§4.4 Timeouts, §4.5 Failure
semantics): with a `timeout_ms` and the process still running at expiry,
run the cleanup closure and report a timeout with the output captured so
far; otherwise wait for the exit and report the exit code. Returns
`none` when the call never returns (no timeout and the process never
exits). The `Bool` records whether the cleanup closure ran. -/
def wait_with_timeout_and_cleanup (beh : ProcBehavior) (timeout_ms : Option Nat) :
    Option (WaitResult × Bool) :=
  match timeout_ms, beh with
  | some t, .exits afterMs code output =>
    if afterMs ≤ t then some (.completed code output, false)
    else some (.timedOut output t, true)
  | some t, .never output => some (.timedOut output t, true)
  | none, .exits _ code output => some (.completed code output, false)
  | none, .never _ => none

/-- OCI-runtime invocations `run_with_crun` performs. -/
inductive CrunEffect where
  | spawnRun (container_id : String)
  | kill (container_id signal : String)
  | delete (container_id : String) (force : Bool)
  deriving DecidableEq

/-- Result of running a command, from `storage.rs` lines 661-665. -/
structure RunResult where
  exit_code : Int
  stdout : String
  stderr : String
  deriving DecidableEq

/-- Model of `run_with_crun` (`storage.rs` lines 842-907): spawn
`crun run --bundle <dir> <id>`; wait with the requested timeout, the
cleanup closure killing the container with SIGKILL and force-deleting it
on expiry; map a completed wait to the child's exit code and output
verbatim, and a timeout to `TIMEOUT_EXIT_CODE` with
`"\ncontainer timed out after {t}ms"` appended to the captured stderr. -/
def run_with_crun (beh : ProcBehavior) (container_id : String) (timeout_ms : Option Nat) :
    Option (RunResult × List CrunEffect) :=
  match wait_with_timeout_and_cleanup beh timeout_ms with
  | none => none
  | some (.completed code output, cleaned) =>
    some ({ exit_code := code, stdout := output.stdout, stderr := output.stderr },
      .spawnRun container_id ::
        if cleaned then [.kill container_id "SIGKILL", .delete container_id true] else [])
  | some (.timedOut output t, cleaned) =>
    some ({ exit_code := TIMEOUT_EXIT_CODE, stdout := output.stdout,
            stderr := output.stderr ++ "\ncontainer timed out after " ++ toString t ++ "ms" },
      .spawnRun container_id ::
        if cleaned then [.kill container_id "SIGKILL", .delete container_id true] else [])

/-- Non-interactive run response variants, from the protocol's
`Completed {exit_code, stdout, stderr}` shape. -/
inductive RunResponse where
  | Completed (exit_code : Int) (stdout stderr : String)
  | Error (message code : String)
  deriving DecidableEq

/-- Response mapping of `handle_run` (`smolvm-agent/src/main.rs` lines
469-490): a successful `run_command` is answered `Completed` with the
exit code, stdout and stderr copied verbatim from the `RunResult`. -/
def handle_run_ok (r : RunResult) : RunResponse :=
  .Completed r.exit_code r.stdout r.stderr

/-- Guest-side side effects the agent's request handler can perform. -/
inductive GuestEffect where
  | syncFs
  | net (e : NetEffect)
  | storageOp (name : String)
  deriving DecidableEq

/-- Model of the guest request dispatcher for the storage-management
subset, instrumented with the side effects each arm performs: the agent's
`handle_request` (`smolvm-agent/src/main.rs` lines 131-188) and the
helper daemon's (`smolvm-helper/src/main.rs` lines 122-153, which is this
exact subset). `ListImages`, `FormatStorage` and `StorageStatus` are kept
shallow (their arms touch only local storage). The `Shutdown` arm (agent
lines 155-160, helper lines 146-152) only logs and builds the
`Ok {shutdown: true}` response: it performs no `sync(2)` — no call to
`sync` exists anywhere in either guest binary. -/
def handle_request (net : Network) (dp : Option String) (s : StorageState) :
    HelperRequest → List GuestEffect × StorageState × SentFrame
  | .Ping => ([], s, .pong PROTOCOL_VERSION)
  | .Pull image platform =>
    match pull_image net dp s image platform with
    | (effs, s', .ok info) => (effs.map GuestEffect.net, s', .okImage info)
    | (effs, s', .error e) => (effs.map GuestEffect.net, s', .error e "PULL_FAILED")
  | .Query image =>
    ([], s, match query_image s image with
      | .ok (some info) => .okImage info
      | .ok none => .error ("image not found: " ++ image) "NOT_FOUND"
      | .error e => .error e "QUERY_FAILED")
  | .ListImages => ([.storageOp "list_images"], s, .okEmpty)
  | .GarbageCollect dry_run =>
    match garbage_collect s dry_run with
    | (freed, s') => ([], s', .okGc freed dry_run)
  | .PrepareOverlay image wid =>
    match prepare_overlay s image wid with
    | (s', .ok info) => ([], s', .okOverlay info)
    | (s', .error e) => ([], s', .error e "OVERLAY_FAILED")
  | .CleanupOverlay wid =>
    match cleanup_overlay s wid with
    | (s', .ok _) => ([], s', .okEmpty)
    | (s', .error e) => ([], s', .error e "CLEANUP_FAILED")
  | .FormatStorage => ([.storageOp "format"], s, .okEmpty)
  | .StorageStatus => ([.storageOp "status"], s, .okEmpty)
  | .Shutdown => ([], s, .okShutdown)

/-- Outcome of the host's read of the shutdown acknowledgment. -/
inductive AckRead where
  | ok
  | err (msg : String)
  deriving DecidableEq

/-- Whether a character list begins with the given pattern. -/
def startsWithChars : List Char → List Char → Bool
  | _, [] => true
  | [], _ :: _ => false
  | h :: hs, n :: ns => h = n && startsWithChars hs ns

/-- Whether a character list contains the given pattern as a contiguous
substring, as `str::contains` with a string pattern. -/
def containsChars : List Char → List Char → Bool
  | [], needle => needle.isEmpty
  | h :: hs, needle => startsWithChars (h :: hs) needle || containsChars hs needle

/-- Benign-error classification in `AgentClient::shutdown`
(`src/agent/client.rs` lines 667-671): an error whose text contains
"os error 35" (EAGAIN) or "temporarily unavailable" is the benign
VM-teardown race. -/
def benign_shutdown_error (msg : String) : Bool :=
  containsChars msg.data "os error 35".data ||
  containsChars msg.data "temporarily unavailable".data

/-- Log classification the host applies to the shutdown acknowledgment:
debug "agent acknowledged shutdown (sync complete)", debug
"shutdown ack not received (connection closed)", or warn "shutdown
acknowledgment failed, proceeding anyway". -/
inductive AckLog where
  | ackReceived
  | benignRace
  | warnProceed
  deriving DecidableEq

/-- Model of `AgentClient::shutdown` after the request write
(`src/agent/client.rs` lines 642-682): classify the acknowledgment read,
but return `Ok(())` in every case (the `Bool` component) — the caller
(`HelperManager::stop`, `src/helper/manager.rs` lines 270-282, which in
addition discards the result) proceeds to SIGTERM no matter how the read
failed. -/
def shutdown_ack (r : AckRead) : AckLog × Bool :=
  match r with
  | .ok => (.ackReceived, true)
  | .err m => (if benign_shutdown_error m then .benignRace else .warnProceed, true)

theorem beU32_u32be (n : Nat) (h : n < 2 ^ 32) :
    beU32 (n / 2 ^ 24 % 256) (n / 2 ^ 16 % 256) (n / 2 ^ 8 % 256) (n % 256) = n := by
  simp only [beU32]
  omega

theorem decode_frameBytes_of_le_max (p : List Nat) (h : p.length ≤ MAX_FRAME_SIZE) :
    decode_message (frameBytes p) = .ok p := by
  have hlt : p.length < 2 ^ 32 := by
    have : MAX_FRAME_SIZE < 2 ^ 32 := by norm_num [MAX_FRAME_SIZE]
    omega
  have hmod : p.length % 2 ^ 32 = p.length := Nat.mod_eq_of_lt hlt
  simp only [frameBytes, u32be, hmod, decode_message, List.cons_append, List.nil_append]
  rw [beU32_u32be p.length hlt]
  have hmax : ¬ MAX_FRAME_SIZE < p.length := not_lt.mpr h
  simp only [hmax, if_false, List.length_cons, List.length_append]
  rw [if_neg (by omega)]
  simp [List.take_length]

theorem decode_frameBytes_of_gt_max (p : List Nat) (h1 : MAX_FRAME_SIZE < p.length)
    (h2 : p.length < 2 ^ 32) :
    decode_message (frameBytes p) = .error (.tooLarge p.length) := by
  have hmod : p.length % 2 ^ 32 = p.length := Nat.mod_eq_of_lt h2
  simp only [frameBytes, u32be, hmod, decode_message, List.cons_append, List.nil_append]
  rw [beU32_u32be p.length h2]
  simp [h1]

theorem reqFromJson_reqToJson : ∀ r : HelperRequest, reqFromJson (reqToJson r) = some r
  | .Ping => by simp [reqToJson, reqFromJson, jlookup]
  | .Pull image none => by
      simp [reqToJson, reqFromJson, jlookup, getStr, getOptStr, optStrJson]
  | .Pull image (some p) => by
      simp [reqToJson, reqFromJson, jlookup, getStr, getOptStr, optStrJson]
  | .Query image => by simp [reqToJson, reqFromJson, jlookup, getStr]
  | .ListImages => by simp [reqToJson, reqFromJson, jlookup]
  | .GarbageCollect dry_run => by simp [reqToJson, reqFromJson, jlookup, getBool]
  | .PrepareOverlay image wid => by simp [reqToJson, reqFromJson, jlookup, getStr]
  | .CleanupOverlay wid => by simp [reqToJson, reqFromJson, jlookup, getStr]
  | .FormatStorage => by simp [reqToJson, reqFromJson, jlookup]
  | .StorageStatus => by simp [reqToJson, reqFromJson, jlookup]
  | .Shutdown => by simp [reqToJson, reqFromJson, jlookup]

theorem respFromJson_respToJson (r : HelperResponse) (hwf : r.wf) (hnull : noNullData r) :
    respFromJson (respToJson r) = some r := by
  cases r with
  | Ok data =>
    cases data with
    | none => simp [respToJson, respFromJson, jlookup, getOptData]
    | some d =>
      cases d <;>
        simp_all [respToJson, respFromJson, jlookup, getOptData, noNullData]
  | Pong version =>
    have hv : version < 2 ^ 32 := hwf
    simp [respToJson, respFromJson, jlookup, getU32]
    omega
  | Progress message percent layer =>
    cases percent with
    | none =>
      cases layer <;>
        simp [respToJson, respFromJson, jlookup, getStr, getOptU8, getOptStr]
    | some p =>
      have hp : p < 2 ^ 8 := hwf p rfl
      have hp' : (0 : Int) ≤ (p : Int) ∧ (p : Int) < 2 ^ 8 := by
        constructor <;> omega
      have hp2 : p < 256 := hp
      cases layer <;>
        simp [respToJson, respFromJson, jlookup, getStr, getOptU8, getOptStr, hp', hp2]
  | Error message code =>
    cases code <;>
      simp [respToJson, respFromJson, jlookup, getStr, getOptStr]

theorem read_response_frame_of_gt_max (p : List Nat) (h1 : MAX_FRAME_SIZE < p.length)
    (h2 : p.length < 2 ^ 32) :
    read_response_frame (frameBytes p) = .frameTooLarge p.length := by
  have hmod : p.length % 2 ^ 32 = p.length := Nat.mod_eq_of_lt h2
  simp only [frameBytes, u32be, hmod, read_response_frame, List.cons_append, List.nil_append]
  rw [beU32_u32be p.length h2]
  simp [h1]

theorem handle_connection_read_frameBytes (p : List Nat) (bufCap : Nat)
    (h2 : p.length < 2 ^ 32) :
    handle_connection_read (frameBytes p) bufCap = .gotRequest p (max bufCap p.length) := by
  have hmod : p.length % 2 ^ 32 = p.length := Nat.mod_eq_of_lt h2
  simp only [frameBytes, u32be, hmod, handle_connection_read, List.cons_append,
    List.nil_append]
  rw [beU32_u32be p.length h2]
  simp [List.take_length]

theorem escapeChar_lower_a : escapeChar (Char.ofNat 97) = [97] := by decide

theorem escChars_replicate_a (n : Nat) :
    escChars (List.replicate n (Char.ofNat 97)) = List.replicate n 97 := by
  induction n with
  | zero => rfl
  | succ n ih =>
    rw [List.replicate_succ, List.replicate_succ]
    show escapeChar (Char.ofNat 97) ++ escChars (List.replicate n (Char.ofNat 97)) = _
    rw [escapeChar_lower_a, ih]
    rfl

theorem escChars_len_method : (escChars ['m', 'e', 't', 'h', 'o', 'd']).length = 6 := by
  decide

theorem escChars_len_query : (escChars ['q', 'u', 'e', 'r', 'y']).length = 5 := by
  decide

theorem escChars_len_image : (escChars ['i', 'm', 'a', 'g', 'e']).length = 5 := by
  decide

theorem serJson_query_aRef_length (n : Nat) :
    (serJson (reqToJson (.Query (aRef n)))).length = n + 29 := by
  show (serJson (.obj [("method", .str "query"), ("image", .str (aRef n))])).length = n + 29
  simp only [serJson, serObjBody, serStr, aRef, escChars_replicate_a]
  simp [List.length_append, List.length_replicate, escChars_len_method, escChars_len_query,
    escChars_len_image]
  omega

theorem helper_client_read_frame_frameBytes (p : List Nat) (h2 : p.length < 2 ^ 32) :
    helper_client_read_frame (frameBytes p) = .gotPayload p := by
  have hmod : p.length % 2 ^ 32 = p.length := Nat.mod_eq_of_lt h2
  simp only [frameBytes, u32be, hmod, helper_client_read_frame, List.cons_append,
    List.nil_append]
  rw [beU32_u32be p.length h2]
  simp [List.take_length]

theorem decode_frameBytes_of_wrap_zero (p : List Nat) (h : p.length % 2 ^ 32 = 0) :
    decode_message (frameBytes p) = .ok [] := by
  simp only [frameBytes, u32be, h, decode_message, List.cons_append, List.nil_append]
  norm_num [beU32, MAX_FRAME_SIZE]

/-- C3, amended. The claim said every receiver rejects a declared frame
length above 16 MiB before allocating. That holds for the protocol
crate's `decode_message` and for `AgentClient::read_response`, but the
in-guest server loop (`handle_connection`, identical in the agent and the
helper daemon) performs no size check at all — it grows its buffer to the
attacker-controlled declared length and delivers the frame — and
`HelperClient::read_response` likewise allocates with no check. For any
payload above the limit (declared length below `2 ^ 32`, so the `as u32`
cast does not wrap): the codec and the agent client reject, while the
guest server accepts the frame and grows its 64 KiB buffer to the full
declared size, and the helper client returns the payload. -/
theorem frame_size_check_amended (p : List Nat) (h1 : MAX_FRAME_SIZE < p.length)
    (h2 : p.length < 2 ^ 32) :
    decode_message (frameBytes p) = .error (.tooLarge p.length) ∧
    read_response_frame (frameBytes p) = .frameTooLarge p.length ∧
    handle_connection_read (frameBytes p) 65536 = .gotRequest p p.length ∧
    helper_client_read_frame (frameBytes p) = .gotPayload p := by
  refine ⟨decode_frameBytes_of_gt_max p h1 h2, read_response_frame_of_gt_max p h1 h2, ?_,
    helper_client_read_frame_frameBytes p h2⟩
  rw [handle_connection_read_frameBytes p 65536 h2]
  have : max 65536 p.length = p.length := by
    have : 65536 ≤ p.length := by
      have : 65536 < MAX_FRAME_SIZE := by norm_num [MAX_FRAME_SIZE]
      omega
    omega
  rw [this]

/-- Witness for C3's amended theorem at a concrete 16 MiB + 1 payload. -/
theorem frame_size_check_amended_witness :
    decode_message (frameBytes (List.replicate (2 ^ 24 + 1) 0)) =
      .error (.tooLarge (2 ^ 24 + 1)) ∧
    read_response_frame (frameBytes (List.replicate (2 ^ 24 + 1) 0)) =
      .frameTooLarge (2 ^ 24 + 1) ∧
    handle_connection_read (frameBytes (List.replicate (2 ^ 24 + 1) 0)) 65536 =
      .gotRequest (List.replicate (2 ^ 24 + 1) 0) (2 ^ 24 + 1) ∧
    helper_client_read_frame (frameBytes (List.replicate (2 ^ 24 + 1) 0)) =
      .gotPayload (List.replicate (2 ^ 24 + 1) 0) := by
  have h := frame_size_check_amended (List.replicate (2 ^ 24 + 1) 0)
    (by rw [List.length_replicate]; norm_num [MAX_FRAME_SIZE])
    (by rw [List.length_replicate]; norm_num)
  rwa [List.length_replicate] at h

/-- C3, counterexample to the claim as stated: on a frame declaring
16 MiB + 1 bytes, the in-guest server does not produce any "frame too
large" error — it resizes its receive buffer from 64 KiB to the full
declared size and hands the oversized payload to the request parser. -/
theorem guest_server_oversize_frame_counterexample :
    MAX_FRAME_SIZE < 2 ^ 24 + 1 ∧
    handle_connection_read (frameBytes (List.replicate (2 ^ 24 + 1) 0)) 65536 =
      .gotRequest (List.replicate (2 ^ 24 + 1) 0) (2 ^ 24 + 1) := by
  constructor
  · norm_num [MAX_FRAME_SIZE]
  · have h := handle_connection_read_frameBytes (List.replicate (2 ^ 24 + 1) 0) 65536
      (by rw [List.length_replicate]; norm_num)
    rw [List.length_replicate] at h
    rw [h]
    norm_num

/-- C6, amended. The claim said `decode(encode(V)) == V` for every value
of the protocol's message types. That fails for values whose JSON
encoding exceeds `MAX_FRAME_SIZE` (see the counterexample) and for an
`Ok` response storing an explicit JSON null datum (serde maps
`"data":null` back to `None`). For every other value the round trip
holds: the framing returns exactly the serialized payload bytes that are
handed to `serde_json::from_slice`, and the typed layer recovers the
value from the JSON it serializes to. -/
theorem roundtrip_within_limit :
    (∀ r : HelperRequest,
        (serJson (reqToJson r)).length ≤ MAX_FRAME_SIZE →
        decode_message (encode_message r) = .ok (serJson (reqToJson r)) ∧
        reqFromJson (reqToJson r) = some r) ∧
    (∀ p : HelperResponse, p.wf → noNullData p →
        (serJson (respToJson p)).length ≤ MAX_FRAME_SIZE →
        decode_message (encodeResponse p) = .ok (serJson (respToJson p)) ∧
        respFromJson (respToJson p) = some p) := by
  constructor
  · intro r h
    exact ⟨decode_frameBytes_of_le_max _ h, reqFromJson_reqToJson r⟩
  · intro p hwf hnull h
    exact ⟨decode_frameBytes_of_le_max _ h, respFromJson_respToJson p hwf hnull⟩

/-- Witness for C6's amended theorem at `Ping` and an `Error` response. -/
theorem roundtrip_within_limit_witness :
    (decode_message (encode_message .Ping) = .ok (serJson (reqToJson .Ping)) ∧
      reqFromJson (reqToJson .Ping) = some .Ping) ∧
    (decode_message (encodeResponse (.Error "boom" none)) =
        .ok (serJson (respToJson (.Error "boom" none))) ∧
      respFromJson (respToJson (.Error "boom" none)) = some (.Error "boom" none)) :=
  ⟨roundtrip_within_limit.1 .Ping (by decide),
   roundtrip_within_limit.2 (.Error "boom" none) (by trivial)
     (by trivial) (by decide)⟩

/-- C6, counterexample to the claim as stated: a `Query` request whose
image reference is 2^24 + 1 letters long serializes to 2^24 + 30 bytes,
`encode_message` emits the frame, and `decode_message` rejects it as too
large — so `decode(encode(V))` is an error, not `V`. -/
theorem roundtrip_oversize_counterexample :
    decode_message (encode_message (.Query (aRef (2 ^ 24 + 1)))) =
      .error (.tooLarge (2 ^ 24 + 30)) := by
  have h := serJson_query_aRef_length (2 ^ 24 + 1)
  have hd := decode_frameBytes_of_gt_max (serJson (reqToJson (.Query (aRef (2 ^ 24 + 1)))))
    (by rw [h]; norm_num [MAX_FRAME_SIZE]) (by rw [h]; norm_num)
  rw [encode_message, hd, h]

/-- C10, amended. `encode_message` imposes no size limit, and for a
message whose JSON encoding lies strictly between `MAX_FRAME_SIZE` and
`2 ^ 32` bytes the produced frame carries the true length and
`decode_message` rejects it as too large. (At `2 ^ 32` bytes and beyond
the `as u32` cast in `encode_message` truncates the length header, and
the receiver misframes the data instead of rejecting it as too large —
see the counterexample.) -/
theorem oversize_frames_rejected_in_range (r : HelperRequest)
    (h1 : MAX_FRAME_SIZE < (serJson (reqToJson r)).length)
    (h2 : (serJson (reqToJson r)).length < 2 ^ 32) :
    (encode_message r).length = 4 + (serJson (reqToJson r)).length ∧
    decode_message (encode_message r) = .error (.tooLarge (serJson (reqToJson r)).length) := by
  constructor
  · simp [encode_message, frameBytes, u32be]
    omega
  · exact decode_frameBytes_of_gt_max _ h1 h2

/-- Witness for C10's amended theorem at the 2^24 + 1 letter query. -/
theorem oversize_frames_rejected_in_range_witness :
    (encode_message (.Query (aRef (2 ^ 24 + 1)))).length =
      4 + (serJson (reqToJson (.Query (aRef (2 ^ 24 + 1))))).length ∧
    decode_message (encode_message (.Query (aRef (2 ^ 24 + 1)))) =
      .error (.tooLarge (serJson (reqToJson (.Query (aRef (2 ^ 24 + 1))))).length) := by
  have h := serJson_query_aRef_length (2 ^ 24 + 1)
  exact oversize_frames_rejected_in_range (.Query (aRef (2 ^ 24 + 1)))
    (by rw [h]; norm_num [MAX_FRAME_SIZE]) (by rw [h]; norm_num)

/-- C10, counterexample to the claim as stated: a `Query` whose encoding
is exactly `2 ^ 32` bytes wraps the `as u32` length cast to zero, so the
frame declares length 0 and `decode_message` accepts it, returning an
empty payload (which then fails JSON parsing) — the frame is not
rejected as too large even though the encoding exceeds
`MAX_FRAME_SIZE`. -/
theorem encode_unbounded_wrap_counterexample :
    MAX_FRAME_SIZE < (serJson (reqToJson (.Query (aRef (2 ^ 32 - 29))))).length ∧
    decode_message (encode_message (.Query (aRef (2 ^ 32 - 29)))) = .ok [] := by
  have h := serJson_query_aRef_length (2 ^ 32 - 29)
  constructor
  · rw [h]; norm_num [MAX_FRAME_SIZE]
  · exact decode_frameBytes_of_wrap_zero _ (by rw [h]; norm_num)

theorem vmIdKeep_hexDigitChar (d : Nat) (hd : d < 16) : vmIdKeep (hexDigitChar d) = true := by
  interval_cases d <;> decide

theorem vmIdGenerate_all_keep (ts : Nat) : ∀ c ∈ vmIdGenerate ts, vmIdKeep c = true := by
  intro c hc
  simp only [vmIdGenerate, natHexChars, List.mem_cons] at hc
  rcases hc with h | h | h | h
  · subst h; decide
  · subst h; decide
  · subst h; decide
  · by_cases hts : ts = 0
    · subst hts; simp at h; subst h; decide
    · rw [if_neg hts] at h
      simp only [List.mem_map, List.mem_reverse] at h
      obtain ⟨d, hd, rfl⟩ := h
      exact vmIdKeep_hexDigitChar d (Nat.digits_lt_base (by norm_num) hd)

theorem vmIdGenerate_length (ts : Nat) (hts : ts < 2 ^ 128) :
    (vmIdGenerate ts).length ≤ 35 := by
  simp only [vmIdGenerate, natHexChars, List.length_cons]
  by_cases hts0 : ts = 0
  · subst hts0; simp
  · rw [if_neg hts0]
    simp only [List.length_map, List.length_reverse]
    have hlen : (Nat.digits 16 ts).length = Nat.log 16 ts + 1 :=
      Nat.digits_len 16 ts (by norm_num) hts0
    have hlog : Nat.log 16 ts < 32 := by
      apply Nat.log_lt_of_lt_pow hts0
      calc ts < 2 ^ 128 := hts
        _ = 16 ^ 32 := by norm_num
    omega

/-- C9, amended. The claim said `VmId::new` keeps only characters in
`[A-Za-z0-9_-]`. The filter in the source keeps `char::is_alphanumeric`,
which is the Unicode predicate, so accented letters and other non-ASCII
alphanumerics survive (see the counterexample). What holds: the output
consists only of Unicode-alphanumeric characters, `-` and `_` (hence
contains no `/`, `:`, `@`, whitespace or control characters), has at most
64 characters, and is never empty (a `vm-<hex millis>` id is generated
when the input sanitizes to empty; `ts` is a `u128`); and
`sanitize_image_name` output never contains `/`, `:` or `@`. Inputs are
taken below code point 0x100, the range on which `rustIsAlphanumeric`
models the Unicode predicate. -/
theorem sanitizers_amended (s : List Char) (img : String) (ts : Nat)
    (hts : ts < 2 ^ 128) (_hchars : ∀ c ∈ s, c.toNat < 256) :
    (∀ c ∈ vmIdNew s ts, vmIdKeep c = true) ∧
    (vmIdNew s ts).length ≤ 64 ∧
    vmIdNew s ts ≠ [] ∧
    (∀ c ∈ (sanitize_image_name img).data,
      c ≠ Char.ofNat 47 ∧ c ≠ Char.ofNat 58 ∧ c ≠ Char.ofNat 64) := by
  refine ⟨?_, ?_, ?_, ?_⟩
  · intro c hc
    unfold vmIdNew at hc
    by_cases he : ((s.filter vmIdKeep).take 64).isEmpty
    · rw [if_pos he] at hc
      exact vmIdGenerate_all_keep ts c hc
    · rw [if_neg he] at hc
      have hmem := List.take_subset 64 (s.filter vmIdKeep) hc
      exact (List.mem_filter.mp hmem).2
  · unfold vmIdNew
    by_cases he : ((s.filter vmIdKeep).take 64).isEmpty
    · rw [if_pos he]
      have := vmIdGenerate_length ts hts
      omega
    · rw [if_neg he]
      simp [List.length_take]
  · unfold vmIdNew
    by_cases he : ((s.filter vmIdKeep).take 64).isEmpty
    · rw [if_pos he]
      simp [vmIdGenerate]
    · rw [if_neg he]
      simpa [List.isEmpty_iff] using he
  · intro c hc
    simp only [sanitize_image_name] at hc
    change c ∈ (img.data.map _) at hc
    obtain ⟨x, hx, rfl⟩ := List.mem_map.mp hc
    by_cases hb : x = Char.ofNat 47 ∨ x = Char.ofNat 58 ∨ x = Char.ofNat 64
    · rw [if_pos hb]
      refine ⟨by decide, by decide, by decide⟩
    · rw [if_neg hb]
      push_neg at hb
      exact ⟨hb.1, hb.2.1, hb.2.2⟩

/-- Witness for C9's amended theorem at a concrete input. -/
theorem sanitizers_amended_witness :
    (∀ c ∈ vmIdNew [Char.ofNat 97, Char.ofNat 33] 0, vmIdKeep c = true) ∧
    (vmIdNew [Char.ofNat 97, Char.ofNat 33] 0).length ≤ 64 ∧
    vmIdNew [Char.ofNat 97, Char.ofNat 33] 0 ≠ [] ∧
    (∀ c ∈ (sanitize_image_name "a/b:c@d").data,
      c ≠ Char.ofNat 47 ∧ c ≠ Char.ofNat 58 ∧ c ≠ Char.ofNat 64) :=
  sanitizers_amended [Char.ofNat 97, Char.ofNat 33] "a/b:c@d" 0
    (by norm_num) (by decide)

/-- C9, counterexample to the claim as stated: the input `"é"` (U+00E9)
passes Rust's `char::is_alphanumeric`, so `VmId::new` keeps it, yet it is
not in the `[A-Za-z0-9_-]` class the claim names. -/
theorem vm_id_unicode_counterexample :
    vmIdNew [Char.ofNat 233] 0 = [Char.ofNat 233] ∧
    specAsciiIdChar (Char.ofNat 233) = false := by decide

theorem query_image_congr (s s' : StorageState) (image : String)
    (hm : s'.manifests = s.manifests) (hc : s'.configs = s.configs)
    (hl : s'.layers = s.layers) :
    query_image s' image = query_image s image := by
  unfold query_image
  rw [hm, hc, hl]

/-- C2, amended. The claim said `Query` reports an image present only
when every layer directory listed in its manifest exists, and that `Pull`
short-circuits only when all layers are present. In the source,
`query_image` checks only that the manifest file exists and the config
file is readable — it never tests the layer directories (a missing layer
merely contributes 0 to the size sum) — and `pull_image` short-circuits
with no network I/O and no state change exactly when `query_image`
succeeds. -/
theorem query_image_manifest_config_characterization
    (s : StorageState) (net : Network) (dp platform : Option String)
    (image : String) (m : Manifest) (cfg : ImageConfig)
    (himg : image ≠ "")
    (hm : alistLookup s.manifests (sanitize_image_name image) = some m)
    (hc : alistLookup s.configs (stripSha256 m.configDigest) = some cfg) :
    query_image s image = .ok (some {
      reference := image
      digest := m.configDigest
      size := (m.layers.map fun d => (alistLookup s.layers (stripSha256 d)).getD 0).sum
      created := cfg.created
      architecture := cfg.architecture.getD "unknown"
      os := cfg.os.getD "linux"
      layer_count := m.layers.length
      layers := m.layers }) ∧
    pull_image net dp s image platform = ([], s, .ok {
      reference := image
      digest := m.configDigest
      size := (m.layers.map fun d => (alistLookup s.layers (stripSha256 d)).getD 0).sum
      created := cfg.created
      architecture := cfg.architecture.getD "unknown"
      os := cfg.os.getD "linux"
      layer_count := m.layers.length
      layers := m.layers }) := by
  have hq : query_image s image = .ok (some {
      reference := image
      digest := m.configDigest
      size := (m.layers.map fun d => (alistLookup s.layers (stripSha256 d)).getD 0).sum
      created := cfg.created
      architecture := cfg.architecture.getD "unknown"
      os := cfg.os.getD "linux"
      layer_count := m.layers.length
      layers := m.layers }) := by
    unfold query_image
    simp only [hm, hc]
  refine ⟨hq, ?_⟩
  unfold pull_image validate_image_reference
  simp [himg, hq]

/-- Witness for C2's amended theorem: a state whose manifest and config
are cached but whose only layer directory is missing. -/
theorem query_image_manifest_config_characterization_witness :
    query_image stateMissingLayer "img" = .ok (some {
      reference := "img"
      digest := "sha256:cfg"
      size := ((["sha256:aaa"].map fun d =>
        (alistLookup stateMissingLayer.layers (stripSha256 d)).getD 0).sum)
      created := none
      architecture := "arm64"
      os := "linux"
      layer_count := ["sha256:aaa"].length
      layers := ["sha256:aaa"] }) ∧
    pull_image emptyNet none stateMissingLayer "img" none = ([], stateMissingLayer, .ok {
      reference := "img"
      digest := "sha256:cfg"
      size := ((["sha256:aaa"].map fun d =>
        (alistLookup stateMissingLayer.layers (stripSha256 d)).getD 0).sum)
      created := none
      architecture := "arm64"
      os := "linux"
      layer_count := ["sha256:aaa"].length
      layers := ["sha256:aaa"] }) :=
  query_image_manifest_config_characterization stateMissingLayer emptyNet none none "img"
    { configDigest := "sha256:cfg", layers := ["sha256:aaa"] }
    { architecture := some "arm64", os := some "linux", created := none }
    (by decide) (by decide) (by decide)

/-- C2, counterexample to the claim as stated: with the manifest and
config for `img` cached but the layer directory for its only layer
missing, `Query` still reports the image present (with a size of 0
contributed by the missing layer), and `Pull` short-circuits with no
network I/O and no state change. The claim required `NOT_FOUND` here and
a real pull. -/
theorem query_image_missing_layer_counterexample :
    alistLookup stateMissingLayer.layers (stripSha256 "sha256:aaa") = none ∧
    query_image stateMissingLayer "img" = .ok (some {
      reference := "img", digest := "sha256:cfg", size := 0, created := none,
      architecture := "arm64", os := "linux", layer_count := 1,
      layers := ["sha256:aaa"] }) ∧
    pull_image emptyNet none stateMissingLayer "img" none = ([], stateMissingLayer, .ok {
      reference := "img", digest := "sha256:cfg", size := 0, created := none,
      architecture := "arm64", os := "linux", layer_count := 1,
      layers := ["sha256:aaa"] }) := by
  decide

theorem nodup_not_mem_erase (l : List String) (a : String) (h : l.Nodup) :
    a ∉ l.erase a :=
  fun hm => ((List.Nodup.mem_erase_iff h).mp hm).1 rfl

theorem prepare_overlay_ok_out (s : StorageState) (image wid : String) (info0 : ImageInfo)
    (hq : query_image s image = .ok (some info0))
    (hl : (info0.layers.all fun d => (alistLookup s.layers (stripSha256 d)).isSome) = true) :
    prepare_overlay s image wid =
      ({ s with
          overlayDirs := if s.overlayDirs.contains wid then s.overlayDirs
            else wid :: s.overlayDirs
          mounts := mergedPath wid :: s.mounts
          bundles := if s.bundles.contains wid then s.bundles else wid :: s.bundles },
        .ok { rootfs_path := mergedPath wid
              upper_path := overlayRoot wid ++ "/upper"
              work_path := overlayRoot wid ++ "/work" }) := by
  unfold prepare_overlay
  simp only [hq]
  have hl' : ∀ x ∈ info0.layers, ¬ alistLookup s.layers (stripSha256 x) = none := by
    intro x hx
    have hx' := List.all_eq_true.mp hl x hx
    simpa [Option.isSome_iff_ne_none] using hx'
  by_cases hd : wid ∈ s.overlayDirs <;>
    by_cases hb : wid ∈ s.bundles <;>
      · simp [hd, hb, hl']
        exact hl'

theorem prepare_overlay_ok_inv (s : StorageState) (image wid : String) (info : OverlayInfo)
    (h : (prepare_overlay s image wid).2 = .ok info) :
    ∃ info0, query_image s image = .ok (some info0) ∧
      (info0.layers.all fun d => (alistLookup s.layers (stripSha256 d)).isSome) = true ∧
      info = { rootfs_path := mergedPath wid
               upper_path := overlayRoot wid ++ "/upper"
               work_path := overlayRoot wid ++ "/work" } := by
  unfold prepare_overlay at h
  rcases hq : query_image s image with e | oi
  · rw [hq] at h
    simp at h
  · rcases oi with _ | info0
    · rw [hq] at h
      simp at h
    · rw [hq] at h
      by_cases hlp : ∀ x ∈ info0.layers, (alistLookup s.layers (stripSha256 x)).isSome = true
      · refine ⟨info0, rfl, List.all_eq_true.mpr hlp, ?_⟩
        by_cases hd : wid ∈ s.overlayDirs <;>
          by_cases hb : wid ∈ s.bundles <;>
            · simp [hd, hb] at h
              rw [if_pos hlp] at h
              simpa using h.symm
      · exfalso
        by_cases hd : wid ∈ s.overlayDirs <;>
          simp [hd, hlp] at h

/-- C4, amended. The claim said a second `PrepareOverlay(image, wid)`
yields the same `OverlayInfo` and leaves a single live mount. The
`OverlayInfo` part holds (the paths depend only on the workload id), but
`prepare_overlay` runs the overlay `mount` unconditionally — only the
internal `get_or_create_overlay` used by `Run` checks `/proc/mounts`
first, not the `PrepareOverlay` request path — so a second call stacks a
second live mount on `merged`. `CleanupOverlay` is a successful no-op
when no workspace exists, and after a successful cleanup a second cleanup
is a no-op. (`s.overlayDirs` is `Nodup`: a directory exists once.) -/
theorem prepare_overlay_idempotence_amended (s : StorageState) (image wid : String)
    (info : OverlayInfo) (hnd : s.overlayDirs.Nodup)
    (h : (prepare_overlay s image wid).2 = .ok info) :
    (prepare_overlay (prepare_overlay s image wid).1 image wid).2 = .ok info ∧
    ((prepare_overlay (prepare_overlay s image wid).1 image wid).1).mounts.count
        (mergedPath wid) = s.mounts.count (mergedPath wid) + 2 ∧
    (wid ∉ s.overlayDirs → cleanup_overlay s wid = (s, .ok ())) ∧
    ((cleanup_overlay s wid).2 = .ok () →
      cleanup_overlay (cleanup_overlay s wid).1 wid =
        ((cleanup_overlay s wid).1, .ok ())) := by
  obtain ⟨info0, hq, hl, hinfo⟩ := prepare_overlay_ok_inv s image wid info h
  have h1 := prepare_overlay_ok_out s image wid info0 hq hl
  set sNew : StorageState := { s with
      overlayDirs := if s.overlayDirs.contains wid then s.overlayDirs
        else wid :: s.overlayDirs
      mounts := mergedPath wid :: s.mounts
      bundles := if s.bundles.contains wid then s.bundles else wid :: s.bundles } with hsNew
  have hq2 : query_image sNew image = .ok (some info0) :=
    (query_image_congr sNew s image rfl rfl rfl).trans hq
  have hl2 : (info0.layers.all fun d =>
      (alistLookup sNew.layers (stripSha256 d)).isSome) = true := hl
  have h2 := prepare_overlay_ok_out sNew image wid info0 hq2 hl2
  refine ⟨?_, ?_, ?_, ?_⟩
  · rw [h1]
    simp only [h2]
    rw [hinfo]
  · rw [h1]
    simp only [h2]
    simp [List.count_cons_self]
  · intro hc
    unfold cleanup_overlay
    simp [hc]
  · intro ht
    unfold cleanup_overlay at ht ⊢
    by_cases hcw : wid ∈ s.overlayDirs
    · by_cases hm2 : mergedPath wid ∈ s.mounts.erase (mergedPath wid)
      · simp [hcw, hm2] at ht
      · simp [hcw, hm2, nodup_not_mem_erase s.overlayDirs wid hnd]
    · simp [hcw]

/-- Witness for C4's amended theorem at the one-layer image state. -/
theorem prepare_overlay_idempotence_amended_witness :
    (prepare_overlay (prepare_overlay stateWithLayer "img" "w").1 "img" "w").2 = .ok
      { rootfs_path := mergedPath "w"
        upper_path := overlayRoot "w" ++ "/upper"
        work_path := overlayRoot "w" ++ "/work" } ∧
    ((prepare_overlay (prepare_overlay stateWithLayer "img" "w").1 "img" "w").1).mounts.count
        (mergedPath "w") = stateWithLayer.mounts.count (mergedPath "w") + 2 ∧
    ("w" ∉ stateWithLayer.overlayDirs →
      cleanup_overlay stateWithLayer "w" = (stateWithLayer, .ok ())) ∧
    ((cleanup_overlay stateWithLayer "w").2 = .ok () →
      cleanup_overlay (cleanup_overlay stateWithLayer "w").1 "w" =
        ((cleanup_overlay stateWithLayer "w").1, .ok ())) :=
  prepare_overlay_idempotence_amended stateWithLayer "img" "w"
    { rootfs_path := mergedPath "w"
      upper_path := overlayRoot "w" ++ "/upper"
      work_path := overlayRoot "w" ++ "/work" }
    (by decide) (by decide)

/-- C4, counterexample to the claim as stated: preparing the same overlay
twice returns the same `OverlayInfo` both times but leaves two stacked
live mounts on the `merged` directory, not a single one. -/
theorem prepare_overlay_double_mount_counterexample :
    (prepare_overlay stateWithLayer "img" "w").2 = .ok
      { rootfs_path := "/storage/overlays/w/merged"
        upper_path := "/storage/overlays/w/upper"
        work_path := "/storage/overlays/w/work" } ∧
    (prepare_overlay (prepare_overlay stateWithLayer "img" "w").1 "img" "w").2 = .ok
      { rootfs_path := "/storage/overlays/w/merged"
        upper_path := "/storage/overlays/w/upper"
        work_path := "/storage/overlays/w/work" } ∧
    ((prepare_overlay (prepare_overlay stateWithLayer "img" "w").1 "img" "w").1).mounts.count
        "/storage/overlays/w/merged" = 2 := by
  decide

/-- C5, amended. The claim said a `Pull` request is answered with
streaming `Progress` frames at layer boundaries terminated by `Ok` or
`Error`. The protocol defines `Progress` and the host client skips such
frames, but the server never sends any: `handle_pull` wraps the whole
pull in a single response, and the connection loop performs exactly one
`send_response` per request. So a `Pull` is answered by exactly one
frame — `Ok {data: ImageInfo}` on success, `Error {code: PULL_FAILED}` on
failure — and the response list contains no `Progress` frame. -/
theorem pull_single_response_amended (net : Network) (dp : Option String)
    (s : StorageState) (image : String) (platform : Option String) :
    server_responses_for_pull net dp s image platform =
      [match (pull_image net dp s image platform).2.2 with
        | .ok info => .okImage info
        | .error e => .error e "PULL_FAILED"] ∧
    (server_responses_for_pull net dp s image platform).filter SentFrame.isProgress = [] := by
  unfold server_responses_for_pull handle_pull
  rcases hp : pull_image net dp s image platform with ⟨effs, s', r⟩
  rcases r with e | info <;> simp [hp, SentFrame.isProgress]

/-- C5, counterexample to the claim as stated: a cold pull of a two-layer
image is answered by a single `Ok {data}` frame; no `Progress` frame with
`percent = index/total * 100` is ever emitted, although the pull
extracted two layers. -/
theorem pull_no_progress_counterexample :
    server_responses_for_pull pullNet none emptyState "alpine" none =
      [.okImage { reference := "alpine", digest := "sha256:cfg2", size := 30,
                  created := some "2024", architecture := "arm64", os := "linux",
                  layer_count := 2, layers := ["sha256:l1", "sha256:l2"] }] ∧
    (server_responses_for_pull pullNet none emptyState "alpine" none).filter
      SentFrame.isProgress = [] := by
  decide

/-- C8, confirmed. `garbage_collect` leaves the state unchanged under
`dry_run`, always returns the summed `dir_size` of exactly the layer
directories referenced by no cached manifest, and when not a dry run the
surviving layer directories are exactly those whose id is referenced by
some cached manifest — in particular a layer still referenced by a
remaining manifest is never removed. -/
theorem garbage_collect_spec (s : StorageState) (dry_run : Bool) :
    (garbage_collect s true).2 = s ∧
    (garbage_collect s dry_run).1 =
      ((s.layers.filter fun kv =>
        ¬ (referencedLayerIds s).contains kv.1).map fun kv => kv.2).sum ∧
    (∀ id size, (id, size) ∈ (garbage_collect s false).2.layers ↔
      (id, size) ∈ s.layers ∧ id ∈ referencedLayerIds s) := by
  refine ⟨rfl, rfl, ?_⟩
  intro id size
  simp only [garbage_collect, Bool.false_eq_true, if_false, List.mem_filter]
  constructor
  · rintro ⟨hm, hc⟩
    exact ⟨hm, List.elem_iff.mp hc⟩
  · rintro ⟨hm, hc⟩
    exact ⟨hm, List.elem_iff.mpr hc⟩

/-- Witness for C8 at the shared-layer state: dry run frees nothing and
reports 3 bytes, a real run removes exactly `orphan`, and `shared` (still
referenced by image B) survives. -/
theorem garbage_collect_spec_witness :
    (garbage_collect gcState true).2 = gcState ∧
    (garbage_collect gcState false).1 =
      ((gcState.layers.filter fun kv =>
        ¬ (referencedLayerIds gcState).contains kv.1).map fun kv => kv.2).sum ∧
    (("shared", 5) ∈ (garbage_collect gcState false).2.layers ↔
      ("shared", 5) ∈ gcState.layers ∧ "shared" ∈ referencedLayerIds gcState) ∧
    (garbage_collect gcState false).1 = 3 ∧
    (garbage_collect gcState false).2.layers = [("shared", 5)] := by
  have h := garbage_collect_spec gcState false
  exact ⟨h.1, h.2.1, h.2.2 "shared" 5, by decide, by decide⟩

/-- C1, evaluated at the failing input. The claim (and the host client's
own doc comments) say the guest invokes `sync(2)` before replying to
`Shutdown`, and that the host proceeds to SIGTERM only after a reply or a
tolerated connection-reset/EAGAIN. In the code the guest's `Shutdown` arm
replies `Ok {shutdown: true}` with no effect at all — no `sync` call
exists in either guest binary — and `AgentClient::shutdown` returns
`Ok(())` whatever the acknowledgment read produced, so its caller
proceeds to SIGTERM even after an arbitrary hard error (the error is
merely logged at warn level). -/
theorem shutdown_no_sync_and_host_proceeds :
    handle_request emptyNet none emptyState .Shutdown = ([], emptyState, .okShutdown) ∧
    ((handle_request emptyNet none emptyState .Shutdown).1.contains .syncFs) = false ∧
    shutdown_ack .ok = (.ackReceived, true) ∧
    shutdown_ack (.err "Resource temporarily unavailable (os error 35)") =
      (.benignRace, true) ∧
    shutdown_ack (.err "permission denied") = (.warnProceed, true) := by
  decide

/-- C7, confirmed (with `wait_with_timeout_and_cleanup` and
`TIMEOUT_EXIT_CODE` modelled from the spec, their `process.rs` being
absent from the sources). When a run carries `timeout_ms = t` and the
child has not exited at expiry, the result is exit code 124 with
`"container timed out after {t}ms"` appended to stderr, and the cleanup
kills the container with SIGKILL; when the child exits in time (or no
timeout is set), its exit code, stdout and stderr pass through verbatim,
and `handle_run` copies them verbatim into the `Completed` response. -/
theorem run_timeout_exit_code_map (cid : String) (t afterMs : Nat) (code : Int)
    (output : ProcOutput) :
    (t < afterMs →
      run_with_crun (.exits afterMs code output) cid (some t) =
        some ({ exit_code := 124, stdout := output.stdout,
                stderr := output.stderr ++ "\ncontainer timed out after " ++
                  toString t ++ "ms" },
          [.spawnRun cid, .kill cid "SIGKILL", .delete cid true])) ∧
    run_with_crun (.never output) cid (some t) =
      some ({ exit_code := 124, stdout := output.stdout,
              stderr := output.stderr ++ "\ncontainer timed out after " ++
                toString t ++ "ms" },
        [.spawnRun cid, .kill cid "SIGKILL", .delete cid true]) ∧
    (afterMs ≤ t →
      run_with_crun (.exits afterMs code output) cid (some t) =
        some ({ exit_code := code, stdout := output.stdout, stderr := output.stderr },
          [.spawnRun cid])) ∧
    run_with_crun (.exits afterMs code output) cid none =
      some ({ exit_code := code, stdout := output.stdout, stderr := output.stderr },
        [.spawnRun cid]) ∧
    handle_run_ok { exit_code := code, stdout := output.stdout, stderr := output.stderr } =
      .Completed code output.stdout output.stderr := by
  refine ⟨?_, ?_, ?_, ?_, rfl⟩
  · intro ht
    simp [run_with_crun, wait_with_timeout_and_cleanup, TIMEOUT_EXIT_CODE,
      Nat.not_le.mpr ht]
  · simp [run_with_crun, wait_with_timeout_and_cleanup, TIMEOUT_EXIT_CODE]
  · intro ht
    simp [run_with_crun, wait_with_timeout_and_cleanup, ht]
  · simp [run_with_crun, wait_with_timeout_and_cleanup]

/-- Witness for C7 at a concrete slow child (`sleep`-like, would exit at
60000 ms with code 0) under a 500 ms timeout, and a fast child exiting
with code 7. -/
theorem run_timeout_exit_code_map_witness :
    run_with_crun (.exits 60000 0 { stdout := "", stderr := "" }) "c1" (some 500) =
      some ({ exit_code := 124, stdout := "",
              stderr := "" ++ "\ncontainer timed out after " ++ toString 500 ++ "ms" },
        [.spawnRun "c1", .kill "c1" "SIGKILL", .delete "c1" true]) ∧
    run_with_crun (.exits 10 7 { stdout := "hi\n", stderr := "" }) "c2" (some 500) =
      some ({ exit_code := 7, stdout := "hi\n", stderr := "" }, [.spawnRun "c2"]) :=
  ⟨((run_timeout_exit_code_map "c1" 500 60000 0 { stdout := "", stderr := "" }).1
      (by norm_num)),
   ((run_timeout_exit_code_map "c2" 500 10 7 { stdout := "hi\n", stderr := "" }).2.2.1
      (by norm_num))⟩

end Smolvm

